import Mathlib

/-!
Verification of the charity-backend credential and encryption subsystem.

The definitions below are a shallow embedding of the JavaScript source:
  - src/models/CharityCode.js   (charityCodeSchema, isValidForUse, useCode)
  - src/utils/encryption        (EncryptionUtil.simpleEncrypt / simpleDecrypt)
  - src/models/User.js          (userSchema, toJSON)
  - src/models/Charity.js       (charitySchema, getDecryptedData)
  - the auth route POST /verify-charity-code
  - the admin routes (bulk code creation, stats, user management)

Timestamps are modelled as natural numbers (milliseconds); Mongo ObjectIds
as natural numbers.  Each definition cites the source lines it embeds.
-/

namespace GoCharity

/-- A charity code document, from the schema in src/models/CharityCode.js
lines 3-43: code (unique, uppercased), expiresAt, isUsed (default false),
usedBy \x7buser, usedAt\x7d, createdBy, optional description, isActive
(default true).  `id` models the Mongo _id. -/
structure CharityCode where
  id : Nat
  code : String
  expiresAt : Nat
  isUsed : Bool
  usedBy : Option (Nat × Nat)
  createdBy : Nat
  description : Option String
  isActive : Bool
  deriving DecidableEq, Repr

/-- charityCodeSchema.methods.isValidForUse (CharityCode.js lines 50-57):
isActive and now < expiresAt and not isUsed. -/
def isValidForUse (c : CharityCode) (now : Nat) : Bool :=
  c.isActive && decide (now < c.expiresAt) && !c.isUsed

/-- charityCodeSchema.methods.useCode (CharityCode.js lines 60-72): throws
(modelled as `none`) unless isValidForUse; otherwise sets usedBy to the
redeeming user with the current time, sets isUsed, and saves the document
(modelled by returning the updated document). -/
def useCode (c : CharityCode) (userId now : Nat) : Option CharityCode :=
  if isValidForUse c now then
    some { c with usedBy := some (userId, now), isUsed := true }
  else
    none

/-! ## Field codec

EncryptionUtil.simpleEncrypt / simpleDecrypt (src/models/CharityCode.js
part 2, lines 128-147) pipe the plaintext through
crypto.createCipher('aes192', ENCRYPTION_KEY) and hex-encode the result;
simpleDecrypt reverses the pipeline and catches every decryption error,
returning null.  The AES-192 cipher itself belongs to Node's crypto
library, not to this repository; it is modelled as an explicit keyed
bijection on Unicode code points, with the PKCS#7-style integrity check
that makes decryption under a different key fail (a leading tag unit that
must decrypt to 0).  The repository-owned parts - the empty-input guards,
the hex blob format, and the catch-to-null error policy - are embedded
directly. -/

/-- Number of Unicode code points; the cipher model permutes this range. -/
def codecModulus : Nat := 1114112

/-- Keyed bijection on code-point units: model of one cipher step. -/
def encUnit (key n : Nat) : Nat := (n + key % codecModulus) % codecModulus

/-- Inverse of `encUnit` for the same key. -/
def decUnit (key n : Nat) : Nat :=
  (n + (codecModulus - key % codecModulus)) % codecModulus

/-- Hex digit characters, exactly as node's hex encoding emits them
(lowercase): 0-9 then a-f. -/
def natToHexDigit (n : Nat) : Char :=
  if n < 10 then Char.ofNat (n + 48) else Char.ofNat (n % 16 + 87)

/-- Parse one hex digit; `none` on any character outside 0-9a-f (the model
of crypto throwing on malformed hex input). -/
def hexDigitToNat (c : Char) : Option Nat :=
  if 48 ≤ c.toNat && c.toNat ≤ 57 then some (c.toNat - 48)
  else if 97 ≤ c.toNat && c.toNat ≤ 102 then some (c.toNat - 87)
  else none

/-- Serialize one unit as six fixed-width hex digits. -/
def unitToHex (n : Nat) : List Char :=
  [natToHexDigit (n / 1048576 % 16), natToHexDigit (n / 65536 % 16),
   natToHexDigit (n / 4096 % 16), natToHexDigit (n / 256 % 16),
   natToHexDigit (n / 16 % 16), natToHexDigit (n % 16)]

/-- Serialize a unit sequence to a hex character stream. -/
def unitsToHexChars : List Nat → List Char
  | [] => []
  | n :: rest => unitToHex n ++ unitsToHexChars rest

/-- Parse a hex character stream back to units; fails on a stray length or
a non-hex character (model of the decipher throwing on malformed input). -/
def parseHexChars : List Char → Option (List Nat)
  | [] => some []
  | c5 :: c4 :: c3 :: c2 :: c1 :: c0 :: rest =>
    match hexDigitToNat c5, hexDigitToNat c4, hexDigitToNat c3,
          hexDigitToNat c2, hexDigitToNat c1, hexDigitToNat c0,
          parseHexChars rest with
    | some d5, some d4, some d3, some d2, some d1, some d0, some us =>
      some ((d5 * 1048576 + d4 * 65536 + d3 * 4096 + d2 * 256
             + d1 * 16 + d0) :: us)
    | _, _, _, _, _, _, _ => none
  | _ => none

/-- The code points of a string (the plaintext units fed to the cipher). -/
def strUnits (s : String) : List Nat := s.data.map Char.toNat

/-- EncryptionUtil.simpleEncrypt (lines 128-134): null for falsy input
(null or the empty string), otherwise the hex blob of the
cipher-transformed plaintext.  The leading 0 unit models the padding block
the real cipher appends, which is what makes wrong-key decryption fail. -/
def simpleEncrypt (key : Nat) (text : Option String) : Option String :=
  match text with
  | none => none
  | some s =>
    if s = "" then none
    else some (String.mk (unitsToHexChars ((0 :: strUnits s).map (encUnit key))))

/-- EncryptionUtil.simpleDecrypt (lines 136-147): null for falsy input;
otherwise hex-decode and decipher, and catch every error (malformed hex,
failed padding check under a foreign key) by returning null. -/
def simpleDecrypt (key : Nat) (blob : Option String) : Option String :=
  match blob with
  | none => none
  | some b =>
    if b = "" then none
    else
      match parseHexChars b.data with
      | none => none
      | some [] => none
      | some (m :: rest) =>
        if decUnit key m = 0 then
          some (String.mk ((rest.map (decUnit key)).map Char.ofNat))
        else
          none

/-! ### Round-trip lemmas for the codec -/

theorem hexDigit_roundtrip :
    ∀ d : Nat, d < 16 → hexDigitToNat (natToHexDigit d) = some d := by
  decide

theorem parseHexChars_unitToHex (n : Nat) (h : n < 16777216) (rest : List Char) :
    parseHexChars (unitToHex n ++ rest)
      = (parseHexChars rest).map (fun us => n :: us) := by
  have e5 := hexDigit_roundtrip (n / 1048576 % 16) (Nat.mod_lt _ (by omega))
  have e4 := hexDigit_roundtrip (n / 65536 % 16) (Nat.mod_lt _ (by omega))
  have e3 := hexDigit_roundtrip (n / 4096 % 16) (Nat.mod_lt _ (by omega))
  have e2 := hexDigit_roundtrip (n / 256 % 16) (Nat.mod_lt _ (by omega))
  have e1 := hexDigit_roundtrip (n / 16 % 16) (Nat.mod_lt _ (by omega))
  have e0 := hexDigit_roundtrip (n % 16) (Nat.mod_lt _ (by omega))
  have harith : n / 1048576 % 16 * 1048576 + n / 65536 % 16 * 65536
      + n / 4096 % 16 * 4096 + n / 256 % 16 * 256 + n / 16 % 16 * 16
      + n % 16 = n := by omega
  cases hr : parseHexChars rest with
  | none =>
    simp only [unitToHex, List.cons_append, List.nil_append, List.append_eq,
      parseHexChars, e5, e4, e3, e2, e1, e0, hr, Option.map_none']
  | some us =>
    simp only [unitToHex, List.cons_append, List.nil_append, List.append_eq,
      parseHexChars, e5, e4, e3, e2, e1, e0, hr, Option.map_some', harith]

theorem parseHexChars_unitsToHexChars :
    ∀ us : List Nat, (∀ n ∈ us, n < 16777216) →
      parseHexChars (unitsToHexChars us) = some us
  | [], _ => rfl
  | n :: rest, h => by
    have hn : n < 16777216 := h n (List.mem_cons_self ..)
    have ih := parseHexChars_unitsToHexChars rest
      (fun m hm => h m (List.mem_cons_of_mem _ hm))
    simp [unitsToHexChars, parseHexChars_unitToHex n hn, ih]

theorem decUnit_encUnit (key n : Nat) (h : n < codecModulus) :
    decUnit key (encUnit key n) = n := by
  unfold decUnit encUnit codecModulus at *
  omega

theorem encUnit_lt (key n : Nat) : encUnit key n < 16777216 := by
  unfold encUnit codecModulus
  omega

theorem char_toNat_lt (c : Char) : c.toNat < codecModulus := by
  have h := c.valid
  show c.val.toNat < codecModulus
  unfold codecModulus
  rcases h with h | ⟨_, h2⟩
  · have hb : c.val.toNat < 55296 := UInt32.toNat_lt_of_lt (by decide) h
    omega
  · have hb : c.val.toNat < 1114112 := UInt32.toNat_lt_of_lt (by decide) h2
    omega

/-- Internal round-trip fact shared by the codec theorems: decoding an
encode-produced blob with the same key recovers the plaintext. -/
theorem decrypt_encrypt_aux (key : Nat) (s : String) (h : s ≠ "") :
    simpleDecrypt key (simpleEncrypt key (some s)) = some s := by
  have hblob : unitsToHexChars ((0 :: strUnits s).map (encUnit key)) ≠ [] := by
    simp [unitsToHexChars, unitToHex]
  have hparse : parseHexChars (unitsToHexChars ((0 :: strUnits s).map (encUnit key)))
      = some ((0 :: strUnits s).map (encUnit key)) := by
    apply parseHexChars_unitsToHexChars
    intro n hn
    rcases List.mem_map.mp hn with ⟨m, _, rfl⟩
    exact encUnit_lt key m
  have hmagic : decUnit key (encUnit key 0) = 0 :=
    decUnit_encUnit key 0 (by unfold codecModulus; omega)
  have hunits : ((strUnits s).map (encUnit key)).map (decUnit key)
      = strUnits s := by
    rw [List.map_map]
    have h1 : (strUnits s).map (decUnit key ∘ encUnit key)
        = (strUnits s).map id := by
      apply List.map_congr_left
      intro m hm
      rcases List.mem_map.mp hm with ⟨c, _, rfl⟩
      exact decUnit_encUnit key _ (char_toNat_lt c)
    rw [h1, List.map_id]
  have hne : String.mk (unitsToHexChars ((0 :: strUnits s).map (encUnit key)))
      ≠ "" := by
    intro hcontra
    apply hblob
    have hdata := congrArg String.data hcontra
    simpa using hdata
  simp only [simpleEncrypt, if_neg h]
  simp only [simpleDecrypt]
  rw [if_neg hne]
  show (match parseHexChars (unitsToHexChars ((0 :: strUnits s).map (encUnit key))) with
    | none => none
    | some [] => none
    | some (m :: rest) =>
      if decUnit key m = 0 then
        some (String.mk ((rest.map (decUnit key)).map Char.ofNat))
      else none) = some s
  rw [hparse]
  simp only [List.map_cons, hmagic, if_pos rfl]
  rw [hunits]
  have hback : (strUnits s).map Char.ofNat = s.data := by
    unfold strUnits
    rw [List.map_map]
    have h2 : s.data.map (Char.ofNat ∘ Char.toNat) = s.data.map id := by
      apply List.map_congr_left
      intro c _
      exact Char.ofNat_toNat c
    rw [h2, List.map_id]
  rw [hback]
  cases s
  rfl

/-! ## User model (src/models/User.js) -/

/-- accountType enum (User.js lines 18-22): individual, charity, admin. -/
inductive AccountType where
  | individual
  | charity
  | admin
  deriving DecidableEq, Repr

/-- charityAuthorization subdocument (User.js lines 24-34): a reference to
the redeemed CharityCode, the authorization time and the canCreateCharity
flag (default false). -/
structure CharityAuthorization where
  code : Option Nat
  authorizedAt : Option Nat
  canCreateCharity : Bool
  deriving DecidableEq, Repr

/-- personalInfo.address subdocument (User.js lines 40-46); every field is
stored encrypted. -/
structure PersonalAddress where
  street : Option String
  city : Option String
  state : Option String
  zipCode : Option String
  country : Option String
  deriving DecidableEq, Repr

/-- personalInfo subdocument (User.js lines 36-49); scalar fields are
stored encrypted. -/
structure PersonalInfo where
  firstName : Option String
  lastName : Option String
  phone : Option String
  address : Option PersonalAddress
  dateOfBirth : Option String
  description : Option String
  deriving DecidableEq, Repr

/-- profile subdocument (User.js lines 51-68), with the nested preference
booleans flattened. -/
structure UserProfile where
  displayName : Option String
  profilePicture : Option String
  isPublic : Bool
  prefEmailNotify : Bool
  prefSmsNotify : Bool
  prefShowEmail : Bool
  prefShowPhone : Bool
  deriving DecidableEq, Repr

/-- A user document (userSchema, User.js lines 5-83).  `id` models the
Mongo _id. -/
structure User where
  id : Nat
  email : String
  password : String
  accountType : AccountType
  charityAuthorization : Option CharityAuthorization
  personalInfo : Option PersonalInfo
  profile : UserProfile
  refreshTokens : List String
  lastLogin : Option Nat
  isActive : Bool
  emailVerified : Bool
  verificationToken : Option String
  deriving DecidableEq, Repr

/-- The route's pre-check condition (part_000 lines 151):
req.user.charityAuthorization and its canCreateCharity flag. -/
def hasGrant (u : User) : Bool :=
  match u.charityAuthorization with
  | some a => a.canCreateCharity
  | none => false

/-- The capability-grant attachment performed by a successful redemption
(part_000 lines 195-201): user.charityAuthorization is assigned a fresh
subdocument referencing the redeemed code, with canCreateCharity true, and
the user is saved.  The assignment is unconditional. -/
def attachGrant (u : User) (codeId now : Nat) : User :=
  let grant : CharityAuthorization :=
    { code := some codeId, authorizedAt := some now, canCreateCharity := true }
  { u with charityAuthorization := some grant }

/-! ## The redemption route POST /verify-charity-code (part_000 141-214) -/

/-- Outcome of a redemption request, one constructor per response the
route can produce. -/
inductive RedeemResult where
  | success
  | validationError
  | alreadyGranted
  | notFound
  | expired
  | alreadyUsed
  | inactive
  | notValid
  | internalError
  deriving DecidableEq, Repr

/-- The shared durable store: charity code documents and user documents. -/
structure Store where
  codes : List CharityCode
  users : List User
  deriving DecidableEq, Repr

/-- Joi schema verifyCharityCodeSchema (part_000 lines 22-24): the code
must be exactly 8 alphanumeric characters; Joi's uppercase() converts the
value to upper case. -/
def validateCodeFormat (s : String) : Option String :=
  if s.data.length == 8 && s.data.all Char.isAlphanum then
    some (String.mk (s.data.map Char.toUpper))
  else
    none

/-- POST /verify-charity-code (part_000 lines 141-214), one request run to
completion: validate the body; refuse if the caller already holds the
authorization; look up the code with findOne \x7bcode, isActive: true\x7d
(404 when absent); report the precedence-ordered invalidity reason
(expired, then already-used, then inactive); otherwise consume the code
via useCode and attach the authorization to the user.  Returns the
response kind and the resulting store. -/
def verifyCharityCode (st : Store) (u : User) (rawCode : String) (now : Nat) :
    RedeemResult × Store :=
  match validateCodeFormat rawCode with
  | none => (.validationError, st)
  | some code =>
    if hasGrant u then
      (.alreadyGranted, st)
    else
      let codeU := String.mk (code.data.map Char.toUpper)
      match st.codes.find? (fun c => c.code == codeU && c.isActive) with
      | none => (.notFound, st)
      | some c =>
        if !(isValidForUse c now) then
          if decide (c.expiresAt ≤ now) then (.expired, st)
          else if c.isUsed then (.alreadyUsed, st)
          else if !c.isActive then (.inactive, st)
          else (.notValid, st)
        else
          match useCode c u.id now with
          | none => (.internalError, st)
          | some c' =>
            let u' := attachGrant u c.id now
            (.success,
             { st with
               codes := st.codes.map (fun d => if d.id == c.id then c' else d),
               users := st.users.map (fun v => if v.id == u.id then u' else v) })

/-! ## Interleaving model of two concurrent redemptions

The route performs redemption as two separate storage steps: first
findOne + isValidForUse on the fetched document (part_000 lines 159-189),
then useCode, which re-checks validity on the same in-memory snapshot and
calls save(), an unconditional write (CharityCode.js lines 60-72).  Two
requests for the same code interleave these steps against the shared
stored document; a read takes a snapshot, a write validates the snapshot
and, if valid there, overwrites the stored document. -/

/-- Per-request state: the fetched snapshot, and the observed outcome
(some true = the request observed success). -/
structure RaceProc where
  snap : Option CharityCode
  observed : Option Bool
  deriving DecidableEq, Repr

/-- Shared stored credential plus the two requests' states. -/
structure RaceState where
  stored : CharityCode
  procA : RaceProc
  procB : RaceProc
  deriving DecidableEq, Repr

/-- A scheduler step: one of the two requests performs its read phase or
its write phase. -/
inductive RaceStep where
  | readA
  | readB
  | writeA
  | writeB
  deriving DecidableEq, Repr

/-- The write phase of one request: useCode on the request's snapshot
(validity is judged on the snapshot, as in the source, where the fetched
document is not re-read) followed by save, which replaces the stored
document. -/
def raceWrite (now uid : Nat) (stored : CharityCode) (p : RaceProc) :
    CharityCode × RaceProc :=
  match p.snap with
  | none => (stored, p)
  | some snap =>
    match useCode snap uid now with
    | some c' => (c', { p with observed := some true })
    | none => (stored, { p with observed := some false })

/-- One scheduler step. -/
def raceStepRun (now idA idB : Nat) (st : RaceState) : RaceStep → RaceState
  | .readA => { st with procA := { st.procA with snap := some st.stored } }
  | .readB => { st with procB := { st.procB with snap := some st.stored } }
  | .writeA =>
    let r := raceWrite now idA st.stored st.procA
    { st with stored := r.1, procA := r.2 }
  | .writeB =>
    let r := raceWrite now idB st.stored st.procB
    { st with stored := r.1, procB := r.2 }

/-- Run a whole schedule. -/
def runRace (now idA idB : Nat) (st : RaceState) (steps : List RaceStep) :
    RaceState :=
  steps.foldl (raceStepRun now idA idB) st

/-! ## Admin routes (part_002) -/

/-- Bulk persistence phase of POST /charity-codes/bulk (part_002 lines
90-111): every generated document is saved with Promise.all; each save
succeeds or fails on the unique index over `code` independently, and a
failed save does not undo the saves that succeeded.  Modelled as one
linearization of the concurrent saves against the store as it stands at
save time (which, per the generation/persistence gap, may already contain
codes claimed by concurrent issuers).  Returns whether every save
succeeded, and the resulting store. -/
def hasCode (store : List CharityCode) (code : String) : Bool :=
  store.any (fun d => d.code == code)

def bulkPersist (store : List CharityCode) (batch : List CharityCode) :
    Bool × List CharityCode :=
  match batch with
  | [] => (true, store)
  | c :: rest =>
    if hasCode store c.code then
      let r := bulkPersist store rest
      (false, r.2)
    else
      let r := bulkPersist (store ++ [c]) rest
      (r.1, r.2)

/-- GET /charity-codes/stats (part_002 lines 176-204): the five counts,
all evaluated against one store snapshot and one `now`. -/
def statsTotal (codes : List CharityCode) : Nat := codes.length

def statsActive (codes : List CharityCode) (now : Nat) : Nat :=
  codes.countP (fun c => c.isActive && decide (now < c.expiresAt) && !c.isUsed)

def statsExpired (codes : List CharityCode) (now : Nat) : Nat :=
  codes.countP (fun c => decide (c.expiresAt ≤ now))

def statsUsed (codes : List CharityCode) : Nat :=
  codes.countP (fun c => c.isUsed)

def statsUnused (codes : List CharityCode) : Nat :=
  codes.countP (fun c => !c.isUsed)

/-- Outcome of an admin user-management request. -/
inductive AdminResult where
  | ok
  | validationError
  | notFound
  | forbidden
  deriving DecidableEq, Repr

/-- The raw body of PUT /users/:id before validation. -/
structure UpdateUserBody where
  accountType : Option String
  isActive : Option Bool
  deriving DecidableEq, Repr

/-- The body after Joi validation. -/
structure ValidatedUpdate where
  accountType : Option AccountType
  isActive : Option Bool
  deriving DecidableEq, Repr

/-- updateUserSchema (part_002 lines 16-19): accountType is optional and
accepts only the strings individual and charity (admin was removed from
the valid list); isActive is an optional boolean. -/
def validateUpdateUser (b : UpdateUserBody) : Option ValidatedUpdate :=
  match b.accountType with
  | none => some { accountType := none, isActive := b.isActive }
  | some t =>
    if t = "individual" then
      some { accountType := some .individual, isActive := b.isActive }
    else if t = "charity" then
      some { accountType := some .charity, isActive := b.isActive }
    else
      none

/-- findById over the user store. -/
def findUser (users : List User) (id : Nat) : Option User :=
  users.find? (fun u => u.id == id)

/-- The field assignment loop of PUT /users/:id (part_002 lines 326-328). -/
def applyUpdate (u : User) (v : ValidatedUpdate) : User :=
  let u1 := match v.accountType with
    | none => u
    | some t => { u with accountType := t }
  match v.isActive with
  | none => u1
  | some a => { u1 with isActive := a }

/-- PUT /users/:id (part_002 lines 308-344): validate the body, find the
target, refuse with 403 when the target is an admin account, otherwise
apply the validated fields and save. -/
def updateUser (users : List User) (id : Nat) (body : UpdateUserBody) :
    AdminResult × List User :=
  match validateUpdateUser body with
  | none => (.validationError, users)
  | some v =>
    match findUser users id with
    | none => (.notFound, users)
    | some u =>
      if u.accountType = .admin then
        (.forbidden, users)
      else
        (.ok, users.map (fun w => if w.id == id then applyUpdate u v else w))

/-! ## Charity model (src/models/Charity.js) -/

/-- basicInfo bundle (Charity.js lines 13-22); every field stored
encrypted. -/
structure BasicInfo where
  name : Option String
  description : Option String
  mission : Option String
  vision : Option String
  foundedYear : Option String
  website : Option String
  email : Option String
  phone : Option String
  deriving DecidableEq, Repr

/-- A registered/mailing address bundle (Charity.js lines 29-35, 46-52);
every field stored encrypted. -/
structure CharityAddress where
  street : Option String
  city : Option String
  state : Option String
  zipCode : Option String
  country : Option String
  deriving DecidableEq, Repr

/-- legalInfo bundle (Charity.js lines 25-36). -/
structure LegalInfo where
  registrationNumber : Option String
  taxId : Option String
  legalStructure : Option String
  registeredAddress : Option CharityAddress
  deriving DecidableEq, Repr

/-- contactInfo.primaryContact bundle (Charity.js lines 40-45). -/
structure PrimaryContact where
  name : Option String
  title : Option String
  email : Option String
  phone : Option String
  deriving DecidableEq, Repr

/-- contactInfo bundle (Charity.js lines 39-53). -/
structure ContactInfo where
  primaryContact : Option PrimaryContact
  mailingAddress : Option CharityAddress
  deriving DecidableEq, Repr

/-- financialInfo.bankingInfo bundle (Charity.js lines 59-64). -/
structure BankingInfo where
  accountName : Option String
  accountNumber : Option String
  routingNumber : Option String
  bankName : Option String
  deriving DecidableEq, Repr

/-- financialInfo bundle (Charity.js lines 56-65); fundingSources entries
are each encrypted. -/
structure FinancialInfo where
  annualBudget : Option String
  fundingSources : Option (List (Option String))
  bankingInfo : Option BankingInfo
  deriving DecidableEq, Repr

/-- A programs entry (Charity.js lines 68-76); the four scalar fields are
encrypted. -/
structure CharityProgram where
  name : Option String
  description : Option String
  targetAudience : Option String
  budget : Option String
  isActive : Bool
  deriving DecidableEq, Repr

/-- status enum (Charity.js lines 88-92). -/
inductive CharityStatus where
  | pending
  | verified
  | suspended
  | inactive
  deriving DecidableEq, Repr

/-- A charity document (charitySchema, Charity.js lines 4-118).
customFields is the free-form Map whose values are encrypted. -/
structure Charity where
  id : Nat
  owner : Nat
  basicInfo : BasicInfo
  legalInfo : Option LegalInfo
  contactInfo : Option ContactInfo
  financialInfo : Option FinancialInfo
  programs : List CharityProgram
  status : CharityStatus
  isPublic : Bool
  customFields : List (String × Option String)
  deriving DecidableEq, Repr

/-- One field of getDecryptedData (Charity.js lines 189-273): each stored
value is decrypted only when truthy (the `if (obj[key])` guards), so a
missing field stays missing, an empty string stays empty, and any other
value is passed through simpleDecrypt, which yields null on a
DecodeError. -/
def decField (key : Nat) (v : Option String) : Option String :=
  match v with
  | none => none
  | some x => if x = "" then some "" else simpleDecrypt key (some x)

/-- Decryption of an address bundle (Charity.js lines 204-209, 225-231). -/
def decAddress (key : Nat) (a : CharityAddress) : CharityAddress :=
  { street := decField key a.street
    city := decField key a.city
    state := decField key a.state
    zipCode := decField key a.zipCode
    country := decField key a.country }

/-- charitySchema.methods.getDecryptedData (Charity.js lines 189-273):
field-by-field decryption of every encrypted bundle; each field is
processed independently, non-encrypted fields are returned as stored, and
the method always returns the (possibly partially degraded) record. -/
def getDecryptedData (key : Nat) (c : Charity) : Charity :=
  { c with
    basicInfo :=
      { name := decField key c.basicInfo.name
        description := decField key c.basicInfo.description
        mission := decField key c.basicInfo.mission
        vision := decField key c.basicInfo.vision
        foundedYear := decField key c.basicInfo.foundedYear
        website := decField key c.basicInfo.website
        email := decField key c.basicInfo.email
        phone := decField key c.basicInfo.phone }
    legalInfo := c.legalInfo.map (fun li =>
      { registrationNumber := decField key li.registrationNumber
        taxId := decField key li.taxId
        legalStructure := decField key li.legalStructure
        registeredAddress := li.registeredAddress.map (decAddress key) })
    contactInfo := c.contactInfo.map (fun ci =>
      { primaryContact := ci.primaryContact.map (fun pc =>
          { name := decField key pc.name
            title := decField key pc.title
            email := decField key pc.email
            phone := decField key pc.phone })
        mailingAddress := ci.mailingAddress.map (decAddress key) })
    financialInfo := c.financialInfo.map (fun fi =>
      { annualBudget := decField key fi.annualBudget
        fundingSources := fi.fundingSources.map
          (fun srcs => srcs.map (fun src => simpleDecrypt key src))
        bankingInfo := fi.bankingInfo.map (fun bi =>
          { accountName := decField key bi.accountName
            accountNumber := decField key bi.accountNumber
            routingNumber := decField key bi.routingNumber
            bankName := decField key bi.bankName }) })
    programs := c.programs.map (fun p =>
      { p with
        name := decField key p.name
        description := decField key p.description
        targetAudience := decField key p.targetAudience
        budget := decField key p.budget })
    customFields := c.customFields.map
      (fun kv => (kv.1, simpleDecrypt key kv.2)) }

/-- DELETE /users/:id (part_002 lines 347-375): find the target, refuse
with 403 when it is an admin account, otherwise delete the user's
charities and then the user. -/
def deleteUser (users : List User) (charities : List Charity) (id : Nat) :
    AdminResult × List User × List Charity :=
  match findUser users id with
  | none => (.notFound, users, charities)
  | some u =>
    if u.accountType = .admin then
      (.forbidden, users, charities)
    else
      (.ok,
       users.filter (fun w => !(w.id == id)),
       charities.filter (fun c => !(c.owner == id)))

/-! ## JSON serialization of users (User.js lines 178-184) -/

/-- A JSON-like value, rich enough for the serialized user document. -/
inductive JValue where
  | jstr : String → JValue
  | jnat : Nat → JValue
  | jbool : Bool → JValue
  | jnull : JValue
  | jarr : List JValue → JValue
  | jobj : List (String × JValue) → JValue

/-- Serialize an optional value, null when absent. -/
def jopt (f : α → JValue) : Option α → JValue
  | none => .jnull
  | some x => f x

/-- accountType as its stored string. -/
def accountTypeStr : AccountType → String
  | .individual => "individual"
  | .charity => "charity"
  | .admin => "admin"

def authorizationToJ (a : CharityAuthorization) : JValue :=
  .jobj [("code", jopt .jnat a.code),
         ("authorizedAt", jopt .jnat a.authorizedAt),
         ("canCreateCharity", .jbool a.canCreateCharity)]

def personalAddressToJ (a : PersonalAddress) : JValue :=
  .jobj [("street", jopt .jstr a.street), ("city", jopt .jstr a.city),
         ("state", jopt .jstr a.state), ("zipCode", jopt .jstr a.zipCode),
         ("country", jopt .jstr a.country)]

def personalInfoToJ (p : PersonalInfo) : JValue :=
  .jobj [("firstName", jopt .jstr p.firstName),
         ("lastName", jopt .jstr p.lastName),
         ("phone", jopt .jstr p.phone),
         ("address", jopt personalAddressToJ p.address),
         ("dateOfBirth", jopt .jstr p.dateOfBirth),
         ("description", jopt .jstr p.description)]

def profileToJ (p : UserProfile) : JValue :=
  .jobj [("displayName", jopt .jstr p.displayName),
         ("profilePicture", jopt .jstr p.profilePicture),
         ("isPublic", .jbool p.isPublic),
         ("preferences", .jobj
           [("notifications", .jobj [("email", .jbool p.prefEmailNotify),
                                     ("sms", .jbool p.prefSmsNotify)]),
            ("privacy", .jobj [("showEmail", .jbool p.prefShowEmail),
                               ("showPhone", .jbool p.prefShowPhone)])])]

/-- this.toObject(): the full document as a key-value object, one entry
per schema path of userSchema (User.js lines 5-83). -/
def toObject (u : User) : List (String × JValue) :=
  [("_id", .jnat u.id),
   ("email", .jstr u.email),
   ("password", .jstr u.password),
   ("accountType", .jstr (accountTypeStr u.accountType)),
   ("charityAuthorization", jopt authorizationToJ u.charityAuthorization),
   ("personalInfo", jopt personalInfoToJ u.personalInfo),
   ("profile", profileToJ u.profile),
   ("refreshTokens", .jarr (u.refreshTokens.map .jstr)),
   ("lastLogin", jopt .jnat u.lastLogin),
   ("isActive", .jbool u.isActive),
   ("emailVerified", .jbool u.emailVerified),
   ("verificationToken", jopt .jstr u.verificationToken)]

/-- userSchema.methods.toJSON (User.js lines 178-184): toObject with the
password, refreshTokens and verificationToken keys deleted. -/
def toJSON (u : User) : List (String × JValue) :=
  (toObject u).filter (fun kv =>
    !(kv.1 == "password" || kv.1 == "refreshTokens"
      || kv.1 == "verificationToken"))

/-! ## Additional codec lemmas shared by the claim theorems -/

/-- The hex blob produced by an encryption is never the empty string. -/
theorem encBlob_ne_empty (key : Nat) (s : String) :
    String.mk (unitsToHexChars ((0 :: strUnits s).map (encUnit key))) ≠ "" := by
  intro hcontra
  have hdata := congrArg String.data hcontra
  simp [unitsToHexChars, unitToHex] at hdata

/-- A blob whose hex decoding fails decrypts to null. -/
theorem simpleDecrypt_malformed (key : Nat) (b : String) (hb : b ≠ "")
    (hmal : parseHexChars b.data = none) :
    simpleDecrypt key (some b) = none := by
  simp only [simpleDecrypt, if_neg hb, hmal]

/-- A blob produced under one key decrypts to null under any key with a
different effective key value. -/
theorem simpleDecrypt_foreignKey (key altKey : Nat) (s : String) (hs : s ≠ "")
    (hk : key % codecModulus ≠ altKey % codecModulus) :
    simpleDecrypt altKey (simpleEncrypt key (some s)) = none := by
  have hne := encBlob_ne_empty key s
  have hparse : parseHexChars (unitsToHexChars ((0 :: strUnits s).map (encUnit key)))
      = some ((0 :: strUnits s).map (encUnit key)) := by
    apply parseHexChars_unitsToHexChars
    intro n hn
    rcases List.mem_map.mp hn with ⟨m, _, rfl⟩
    exact encUnit_lt key m
  have hdec : decUnit altKey (encUnit key 0) ≠ 0 := by
    simp only [decUnit, encUnit, codecModulus] at hk ⊢
    omega
  simp only [simpleEncrypt, if_neg hs]
  simp only [simpleDecrypt]
  rw [if_neg hne]
  show (match parseHexChars (unitsToHexChars ((0 :: strUnits s).map (encUnit key))) with
    | none => none
    | some [] => none
    | some (m :: rest) =>
      if decUnit altKey m = 0 then
        some (String.mk ((rest.map (decUnit altKey)).map Char.ofNat))
      else none) = none
  rw [hparse]
  simp only [List.map_cons]
  rw [if_neg hdec]

/-- Decrypting through the truthiness guard recovers the plaintext of a
same-key blob. -/
theorem decField_encrypt (key : Nat) (s : String) (hs : s ≠ "") :
    decField key (simpleEncrypt key (some s)) = some s := by
  have hne := encBlob_ne_empty key s
  have hrt := decrypt_encrypt_aux key s hs
  simp only [simpleEncrypt, if_neg hs] at hrt ⊢
  simp only [decField, if_neg hne]
  exact hrt

/-! ## Witness fixtures: concrete documents used by witnesses and
counterexamples -/

def wProfile : UserProfile :=
  { displayName := none, profilePicture := none, isPublic := false,
    prefEmailNotify := true, prefSmsNotify := false,
    prefShowEmail := false, prefShowPhone := false }

/-- A fresh individual user without a grant. -/
def wFreshUser : User :=
  { id := 7, email := "u@example.com", password := "hash", accountType := .individual,
    charityAuthorization := none, personalInfo := none, profile := wProfile,
    refreshTokens := ["tok1"], lastLogin := none, isActive := true,
    emailVerified := false, verificationToken := some "vt" }

/-- A deactivated, never-redeemed code. -/
def wInactiveCode : CharityCode :=
  { id := 1, code := "AAAAAAAA", expiresAt := 1000, isUsed := false,
    usedBy := none, createdBy := 9, description := none, isActive := false }

def wStoreInactive : Store :=
  { codes := [wInactiveCode], users := [wFreshUser] }

/-- An existing grant, as attached by an earlier redemption. -/
def wGrantedAuth : CharityAuthorization :=
  { code := some 1, authorizedAt := some 5, canCreateCharity := true }

/-- A user who already holds the charity-creation grant. -/
def wGrantedUser : User :=
  { wFreshUser with id := 8, charityAuthorization := some wGrantedAuth }

/-- A still-valid stored code. -/
def wValidCode : CharityCode :=
  { wInactiveCode with id := 2, code := "CCCCCCCC", isActive := true }

def wStoreValid : Store :=
  { codes := [wValidCode], users := [wGrantedUser] }

/-- A code already persisted before a bulk run. -/
def wExistingCode : CharityCode :=
  { id := 10, code := "AAAAAAAA", expiresAt := 1000, isUsed := false,
    usedBy := none, createdBy := 9, description := none, isActive := true }

def wBatchFresh : CharityCode :=
  { wExistingCode with id := 11, code := "BBBBBBBB", description := some "Batch code 1" }

def wBatchDup : CharityCode :=
  { wExistingCode with id := 12, code := "AAAAAAAA", description := some "Batch code 2" }

def wAdminUser : User :=
  { wFreshUser with id := 3, accountType := .admin }

def wBasicInfoEmpty : BasicInfo :=
  { name := none, description := none, mission := none, vision := none,
    foundedYear := none, website := none, email := none, phone := none }

def wOwnedCharity : Charity :=
  { id := 20, owner := 3, basicInfo := wBasicInfoEmpty, legalInfo := none,
    contactInfo := none, financialInfo := none, programs := [],
    status := .pending, isPublic := false, customFields := [] }

def wUpdateBody : UpdateUserBody :=
  { accountType := some "charity", isActive := some false }

def wValidatedBody : ValidatedUpdate :=
  { accountType := some .charity, isActive := some false }

/-- A charity record whose stored name blob is malformed hex and whose
description is a well-formed blob under key 1. -/
def wDegradedCharity : Charity :=
  { wOwnedCharity with
    basicInfo := { wBasicInfoEmpty with
      name := some "zz", description := simpleEncrypt 1 (some "hello") } }

/-- The initial credential of the race scenario: still valid at time 100. -/
def raceCredential : CharityCode :=
  { id := 1, code := "RACECODE", expiresAt := 200, isUsed := false,
    usedBy := none, createdBy := 9, description := none, isActive := true }

def raceStart : RaceState :=
  { stored := raceCredential,
    procA := { snap := none, observed := none },
    procB := { snap := none, observed := none } }

/-- The interleaving in which both requests read before either writes. -/
def raceFinal : RaceState :=
  runRace 100 1 2 raceStart [.readA, .readB, .writeA, .writeB]

/-! ## Claim theorems -/

/-- Claim C1 (code bug witnessed): against the read-then-write redemption
of the source (findOne + isValidForUse, then useCode/save on the fetched
snapshot), the interleaving read-A, read-B, write-A, write-B of two
distinct identities (1 and 2) on one still-valid credential makes BOTH
requests observe success, and the final stored redemption records identity
2, the last writer - contradicting the claim that exactly one attempt
observes success with every other observing AlreadyUsed. -/
theorem redeem_race_two_winners :
    isValidForUse raceCredential 100 = true ∧
    raceFinal.procA.observed = some true ∧
    raceFinal.procB.observed = some true ∧
    raceFinal.stored.usedBy = some (2, 100) := by
  refine ⟨rfl, rfl, rfl, rfl⟩

/-- Claim C2 counterexample: redeeming the deactivated, never-redeemed
code "AAAAAAAA" is answered with NotFound, not with Inactive: the route
looks the code up with findOne \x7bcode, isActive: true\x7d, so the
deactivated document is simply not found and the Inactive branch of the
reason report is unreachable. -/
theorem deactivated_code_redeem_cex :
    wInactiveCode.isActive = false ∧ wInactiveCode.isUsed = false ∧
    (verifyCharityCode wStoreInactive wFreshUser "AAAAAAAA" 10).1 =
      RedeemResult.notFound ∧
    RedeemResult.notFound ≠ RedeemResult.inactive := by
  refine ⟨rfl, rfl, by decide, by decide⟩

/-- Claim C2 (amended): for every credential that has been deactivated
(active=false), a subsequent Redeem attempt with its code fails with
NotFound (the lookup filters on isActive, so the deactivated code is
reported as absent) and the store is unchanged. -/
theorem deactivated_code_redeem_notFound (st : Store) (u : User)
    (rawCode code : String) (now : Nat)
    (hfmt : validateCodeFormat rawCode = some code)
    (hg : hasGrant u = false)
    (hinact : ∀ c ∈ st.codes,
      c.code = String.mk (code.data.map Char.toUpper) → c.isActive = false) :
    verifyCharityCode st u rawCode now = (.notFound, st) := by
  have hfind : st.codes.find?
      (fun c => c.code == String.mk (code.data.map Char.toUpper) && c.isActive)
      = none := by
    rw [List.find?_eq_none]
    intro c hc hpc
    simp only [Bool.and_eq_true, beq_iff_eq] at hpc
    have hfalse := hinact c hc hpc.1
    rw [hfalse] at hpc
    exact Bool.false_ne_true hpc.2
  simp only [verifyCharityCode, hfmt, hg, Bool.false_eq_true, if_false, hfind]

theorem deactivated_code_redeem_notFound_witness :
    validateCodeFormat "AAAAAAAA" = some "AAAAAAAA" ∧
    hasGrant wFreshUser = false ∧
    (∀ c ∈ wStoreInactive.codes,
      c.code = String.mk (("AAAAAAAA").data.map Char.toUpper) →
        c.isActive = false) ∧
    verifyCharityCode wStoreInactive wFreshUser "AAAAAAAA" 10 =
      (.notFound, wStoreInactive) :=
  ⟨by decide, by decide, by decide,
   deactivated_code_redeem_notFound wStoreInactive wFreshUser "AAAAAAAA"
     "AAAAAAAA" 10 (by decide) (by decide) (by decide)⟩

/-- Claim C3 counterexample: the attach operation (the unconditional
assignment of user.charityAuthorization in the route) applied to a user
who already holds a grant does not reject: it succeeds and replaces the
existing grant (credentialRef 1) with the new one (credentialRef 2), so
the existing grant is not left unchanged and no GrantConflict exists. -/
theorem attach_second_overwrites_cex :
    wGrantedUser.charityAuthorization = some wGrantedAuth ∧
    (attachGrant wGrantedUser 2 7).charityAuthorization =
      some ({ code := some 2, authorizedAt := some 7,
              canCreateCharity := true } : CharityAuthorization) ∧
    (attachGrant wGrantedUser 2 7).charityAuthorization ≠
      wGrantedUser.charityAuthorization := by
  refine ⟨rfl, rfl, by decide⟩

/-- Claim C3 (amended): a second invocation of the attach operation for an
identity that already holds a grant is not rejected: it unconditionally
overwrites the identity's grant with the new credentialRef and grantedAt
(there is no GrantConflict defense in the attach operation itself). -/
theorem attach_second_overwrites (u : User) (g : CharityAuthorization)
    (hg : u.charityAuthorization = some g) (codeId t : Nat) :
    (attachGrant u codeId t).charityAuthorization =
      some ({ code := some codeId, authorizedAt := some t,
              canCreateCharity := true } : CharityAuthorization) :=
  rfl

theorem attach_second_overwrites_witness :
    wGrantedUser.charityAuthorization = some wGrantedAuth ∧
    (attachGrant wGrantedUser 2 7).charityAuthorization =
      some ({ code := some 2, authorizedAt := some 7,
              canCreateCharity := true } : CharityAuthorization) :=
  ⟨rfl, attach_second_overwrites wGrantedUser wGrantedAuth rfl 2 7⟩

/-- Claim C4 counterexample: bulk persistence over a store already holding
"AAAAAAAA", with a batch whose first code "BBBBBBBB" is fresh and whose
second code collides, reports failure yet leaves "BBBBBBBB" persisted: the
Promise.all of independent saves has no rollback, so the batch is partial,
contradicting the claim that no credential of a failing batch is
persisted. -/
theorem bulk_partial_persist_cex :
    (bulkPersist [wExistingCode] [wBatchFresh, wBatchDup]).1 = false ∧
    hasCode (bulkPersist [wExistingCode] [wBatchFresh, wBatchDup]).2
      "BBBBBBBB" = true ∧
    hasCode [wExistingCode] "BBBBBBBB" = false := by
  refine ⟨by decide, by decide, by decide⟩

/-- Claim C4 (amended): IssueBatch does not fail atomically: when a code
of the batch cannot be persisted because of a uniqueness violation, the
batch's other codes that saved successfully remain persisted and the
operation reports failure (a partial batch is left behind). -/
theorem bulk_partial_persist (store : List CharityCode) (c1 c2 : CharityCode)
    (h1 : hasCode store c1.code = false) (h2 : hasCode store c2.code = true) :
    bulkPersist store [c1, c2] = (false, store ++ [c1]) := by
  have h2x : hasCode (store ++ [c1]) c2.code = true := by
    unfold hasCode at h2 ⊢
    rw [List.any_append]
    simp [h2]
  simp only [bulkPersist, h1, h2x, Bool.false_eq_true, if_false, if_true]

theorem bulk_partial_persist_witness :
    hasCode [wExistingCode] wBatchFresh.code = false ∧
    hasCode [wExistingCode] wBatchDup.code = true ∧
    bulkPersist [wExistingCode] [wBatchFresh, wBatchDup] =
      (false, [wExistingCode] ++ [wBatchFresh]) :=
  ⟨by decide, by decide,
   bulk_partial_persist [wExistingCode] wBatchFresh wBatchDup
     (by decide) (by decide)⟩

/-- Claim C5: for every non-empty plaintext string s and every key,
decoding the blob produced by encoding s returns exactly s; the blob is a
single hex string with no internal field delimiter, so strings containing
any characters round-trip. -/
theorem simpleDecrypt_simpleEncrypt (key : Nat) (s : String) (h : s ≠ "") :
    simpleDecrypt key (simpleEncrypt key (some s)) = some s :=
  decrypt_encrypt_aux key s h

theorem simpleDecrypt_simpleEncrypt_witness :
    ("a:b;c" : String) ≠ "" ∧
    simpleDecrypt 3 (simpleEncrypt 3 (some "a:b;c")) = some "a:b;c" :=
  ⟨by decide, simpleDecrypt_simpleEncrypt 3 "a:b;c" (by decide)⟩

/-- Claim C6: a user who already holds the charity-creation grant is
refused with AlreadyGranted before any code lookup, for every store, every
(schema-valid) presented code and every time; the store - hence every
credential's redemption and active state - is returned unchanged. -/
theorem redeem_alreadyGranted_no_change (st : Store) (u : User)
    (rawCode code : String) (now : Nat)
    (hfmt : validateCodeFormat rawCode = some code)
    (hg : hasGrant u = true) :
    verifyCharityCode st u rawCode now = (.alreadyGranted, st) := by
  simp only [verifyCharityCode, hfmt, hg, if_true]

theorem redeem_alreadyGranted_no_change_witness :
    validateCodeFormat "CCCCCCCC" = some "CCCCCCCC" ∧
    hasGrant wGrantedUser = true ∧
    verifyCharityCode wStoreValid wGrantedUser "CCCCCCCC" 10 =
      (.alreadyGranted, wStoreValid) :=
  ⟨by decide, by decide,
   redeem_alreadyGranted_no_change wStoreValid wGrantedUser "CCCCCCCC"
     "CCCCCCCC" 10 (by decide) (by decide)⟩

/-- Claim C7: decoding a malformed blob or a blob encrypted under a
different key fails with null (the caught-DecodeError signal) rather than
anything uncaught, and a failed field does not abort getDecryptedData: the
record is still returned, the malformed field is degraded to null, the
other fields (here the description) decode normally, and non-encrypted
fields are untouched. -/
theorem decode_error_degrades_field_only (key altKey : Nat) (b s : String)
    (c : Charity) (hb : b ≠ "") (hmal : parseHexChars b.data = none)
    (hs : s ≠ "") (hk : key % codecModulus ≠ altKey % codecModulus)
    (hname : c.basicInfo.name = some b)
    (hdesc : c.basicInfo.description = simpleEncrypt key (some s)) :
    simpleDecrypt key (some b) = none ∧
    simpleDecrypt altKey (simpleEncrypt key (some s)) = none ∧
    (getDecryptedData key c).basicInfo.name = none ∧
    (getDecryptedData key c).basicInfo.description = some s ∧
    (getDecryptedData key c).status = c.status ∧
    (getDecryptedData key c).owner = c.owner := by
  refine ⟨simpleDecrypt_malformed key b hb hmal,
          simpleDecrypt_foreignKey key altKey s hs hk, ?_, ?_, rfl, rfl⟩
  · show decField key c.basicInfo.name = none
    rw [hname]
    simp only [decField, if_neg hb]
    exact simpleDecrypt_malformed key b hb hmal
  · show decField key c.basicInfo.description = some s
    rw [hdesc]
    exact decField_encrypt key s hs

theorem decode_error_degrades_field_only_witness :
    ("zz" : String) ≠ "" ∧
    parseHexChars ("zz").data = none ∧
    ("hello" : String) ≠ "" ∧
    (1 : Nat) % codecModulus ≠ (2 : Nat) % codecModulus ∧
    wDegradedCharity.basicInfo.name = some "zz" ∧
    wDegradedCharity.basicInfo.description = simpleEncrypt 1 (some "hello") ∧
    (getDecryptedData 1 wDegradedCharity).basicInfo.name = none ∧
    (getDecryptedData 1 wDegradedCharity).basicInfo.description =
      some "hello" :=
  ⟨by decide, by decide, by decide, by decide, rfl, rfl,
   (decode_error_degrades_field_only 1 2 "zz" "hello" wDegradedCharity
     (by decide) (by decide) (by decide) (by decide) rfl rfl).2.2.1,
   (decode_error_degrades_field_only 1 2 "zz" "hello" wDegradedCharity
     (by decide) (by decide) (by decide) (by decide) rfl rfl).2.2.2.1⟩

/-- Claim C8: for every store snapshot and every fixed evaluation time,
the stats counts satisfy used + unused = total and active ≤ unused, where
the active count is exactly the credentials with isActive, not yet
expired, and not used. -/
theorem stats_counts_consistent (codes : List CharityCode) (now : Nat) :
    statsUsed codes + statsUnused codes = statsTotal codes ∧
    statsActive codes now ≤ statsUnused codes := by
  constructor
  · induction codes with
    | nil => rfl
    | cons c rest ih =>
      simp only [statsUsed, statsUnused, statsTotal, List.countP_cons,
        List.length_cons] at ih ⊢
      cases hc : c.isUsed <;> simp [hc] <;> omega
  · apply List.countP_mono_left
    intro c _ hc
    simp only [Bool.and_eq_true] at hc
    simpa using hc.2

/-- Claim C9: admin accounts are immutable through the admin
user-management API: an update or a delete aimed at an admin account is
refused with 403 and both the user store and the charity store are
returned unchanged, and the update schema accepts only individual and
charity as accountType, so no request can set an account's type to
admin. -/
theorem admin_accounts_immutable (users : List User) (charities : List Charity)
    (id : Nat) (body : UpdateUserBody) (v : ValidatedUpdate) (u : User)
    (hval : validateUpdateUser body = some v)
    (hfind : findUser users id = some u)
    (hadmin : u.accountType = .admin) :
    updateUser users id body = (.forbidden, users) ∧
    deleteUser users charities id = (.forbidden, users, charities) ∧
    (∀ b vb, validateUpdateUser b = some vb →
      vb.accountType ≠ some .admin) := by
  refine ⟨?_, ?_, ?_⟩
  · simp only [updateUser, hval, hfind, hadmin, if_pos]
  · simp only [deleteUser, hfind, hadmin, if_pos]
  · intro b vb hb
    cases hbody : b.accountType with
    | none =>
      simp only [validateUpdateUser, hbody] at hb
      injection hb with h1
      rw [← h1]
      simp
    | some t =>
      simp only [validateUpdateUser, hbody] at hb
      by_cases ht : t = "individual"
      · rw [if_pos ht] at hb
        injection hb with h1
        rw [← h1]
        simp
      · rw [if_neg ht] at hb
        by_cases ht2 : t = "charity"
        · rw [if_pos ht2] at hb
          injection hb with h1
          rw [← h1]
          simp
        · rw [if_neg ht2] at hb
          cases hb

theorem admin_accounts_immutable_witness :
    validateUpdateUser wUpdateBody = some wValidatedBody ∧
    findUser [wAdminUser] 3 = some wAdminUser ∧
    wAdminUser.accountType = .admin ∧
    updateUser [wAdminUser] 3 wUpdateBody = (.forbidden, [wAdminUser]) ∧
    deleteUser [wAdminUser] [wOwnedCharity] 3 =
      (.forbidden, [wAdminUser], [wOwnedCharity]) :=
  ⟨by decide, by decide, by decide,
   (admin_accounts_immutable [wAdminUser] [wOwnedCharity] 3 wUpdateBody
     wValidatedBody wAdminUser (by decide) (by decide) (by decide)).1,
   (admin_accounts_immutable [wAdminUser] [wOwnedCharity] 3 wUpdateBody
     wValidatedBody wAdminUser (by decide) (by decide) (by decide)).2.1⟩

/-- Claim C10: the JSON serialization of a user never contains the
password hash, the refreshTokens list, or the verificationToken, for every
user document whatever its contents. -/
theorem toJSON_omits_sensitive_fields (u : User) :
    (toJSON u).lookup "password" = none ∧
    (toJSON u).lookup "refreshTokens" = none ∧
    (toJSON u).lookup "verificationToken" = none := by
  refine ⟨rfl, rfl, rfl⟩

end GoCharity
